import Mathlib

/-!
Shallow embedding of `src/python/pants/init/extension_loader.py`.

The module loads "backends" (source-resident extension modules) and
"plugins" (installed distributions) into a mutable `BuildConfiguration`.
We model the configuration mutations and entry-point invocations as an
event trace, and errors as an `Option LoadError` terminating the trace.
External collaborators are modelled as functions:
 - `importlib.import_module` becomes `resolver : String → Except String RegisterModule`
   (the `Except.error` payload is the repr of the `ImportError`);
 - `working_set.find` becomes `ws : String → Option PluginDist`, a lookup
   keyed by the parsed requirement's canonical key (`Requirement.parse(s).key`),
   which is how `WorkingSet.find` indexes distributions;
 - a distribution's `pantsbuild.plugin` entry-point map becomes optional
   fields of `PluginDist`, one per fixed entry-point name;
 - registration payloads (target types, subsystems, aliases, rules) are
   abstracted as `List Nat`; Python truthiness of a returned list/None is
   `truthy`.
-/

/-- Observable steps of a load sequence: entry-point invocations
(`entrypoint()` calls made by the loaders, tagged by the owning backend
module or plugin requirement string), the four `BuildConfiguration.register*`
mutations with their payloads, and `traceback.print_exc()`. -/
inductive Event where
  | invokeEP (owner : String) (name : String)
  | regTargets (v : List Nat)
  | regOptionables (v : List Nat)
  | regAliases (v : List Nat)
  | regRules (v : List Nat)
  | printExc
  deriving DecidableEq, Repr

/-- Errors raised by the loaders. `pluginNotFound` and `pluginLoadOrderError`
are the `PluginNotFound` / `PluginLoadOrderError` classes of the source;
`backendConfigurationError` is `pants.base.exceptions.BackendConfigurationError`
carrying its formatted message; `propagated` is an exception of another type
escaping unwrapped (the loaders install no handler for it). -/
inductive LoadError where
  | pluginNotFound (req : String)
  | pluginLoadOrderError (plugin : String) (dep : String)
  | backendConfigurationError (msg : String)
  | propagated (msg : String)
  deriving DecidableEq, Repr

/-- Python truthiness of an entry-point result: `None` (from the
`getattr` default `lambda: None`) and the empty list are falsy. -/
def truthy : Option (List Nat) → Bool
  | some (_ :: _) => true
  | _ => false

/-- Characters that end the project-name part of a requirement string
(version-comparison operators, extras, markers, whitespace), as recognised
by `pkg_resources.Requirement.parse`. -/
def isVersionOpChar (c : Char) : Bool :=
  c = '<' || c = '>' || c = '=' || c = '!' || c = '~' || c = ';' ||
  c = '[' || c = '(' || c = ' ' || c = ','

/-- The project-name characters of a requirement string: the maximal
constraint-free head. -/
def reqProjectChars (s : String) : List Char :=
  s.toList.takeWhile (fun c => !isVersionOpChar c)

/-- `Requirement.parse(s).key`: the case-normalised (lower-cased) project
name, dropping any version constraint. -/
def reqKey (s : String) : String :=
  String.mk ((reqProjectChars s).map Char.toLower)

/-- One possible shape of a module attribute probed by
`invoke_entrypoint`: absent, a zero-arg callable returning a value, or a
callable whose call raises. `raisesTypeError` covers every `TypeError`
produced by evaluating `entrypoint()` — whether from an arity mismatch or
from the body of a valid zero-arg callable, since `except TypeError`
cannot tell these apart. `raisesOther` is an exception of any other type. -/
inductive Attr where
  | absent
  | returns (v : List Nat)
  | raisesTypeError (ex : String)
  | raisesOther (ex : String)
  deriving DecidableEq, Repr

/-- A backend's `register` module: the six fixed-name entry points probed
by `load_backend` via `getattr`. -/
structure RegisterModule where
  targets2 : Attr
  register_goals : Attr
  global_subsystems : Attr
  build_file_aliases : Attr
  rules : Attr
  build_file_aliases2 : Attr
  deriving DecidableEq, Repr

/-- Message of the `BackendConfigurationError` raised when the register
module fails to import (`load_backend`, line 191). -/
def importFailMsg (backend_module ex : String) : String :=
  "Failed to load the " ++ backend_module ++ " backend: " ++ ex

/-- Message of the `BackendConfigurationError` raised when an entry point
is not a zero-arg callable (`invoke_entrypoint`, lines 199-201). -/
def entryPointErrMsg (name backend_module ex : String) : String :=
  "Entrypoint " ++ name ++ " in " ++ backend_module ++ " must be a zero-arg callable: " ++ ex

/-- `invoke_entrypoint(name)` of `load_backend` (lines 193-201):
`entrypoint = getattr(module, name, lambda: None)` then `entrypoint()`
inside `try ... except TypeError`, which prints the traceback and raises
`BackendConfigurationError`; other exceptions propagate unwrapped. Returns
the emitted events and either the value (`none` = Python `None`) or the
error. -/
def invoke_entrypoint (backend_module name : String) (a : Attr) :
    List Event × Except LoadError (Option (List Nat)) :=
  match a with
  | .absent => ([Event.invokeEP backend_module name], .ok none)
  | .returns v => ([Event.invokeEP backend_module name], .ok (some v))
  | .raisesTypeError ex =>
      ([Event.invokeEP backend_module name, Event.printExc],
       .error (.backendConfigurationError (entryPointErrMsg name backend_module ex)))
  | .raisesOther ex =>
      ([Event.invokeEP backend_module name], .error (.propagated ex))

/-- Sequencing of two traced computations: if the first errored, the
second never runs (its events are dropped); otherwise events concatenate
and the second's outcome stands. -/
def seqR (a b : List Event × Option LoadError) : List Event × Option LoadError :=
  match a with
  | (evs, some e) => (evs, some e)
  | (evs, none) => (evs ++ b.1, b.2)

/-- An `x = invoke_entrypoint(n); if x: register(x)` block of
`load_backend`: the non-empty guard means a falsy result is never passed
to the register call. -/
def invokeAndReg (backend_module name : String) (a : Attr) (mk : List Nat → Event) :
    List Event × Option LoadError :=
  match invoke_entrypoint backend_module name a with
  | (evs, .error e) => (evs, some e)
  | (evs, .ok v) => (evs ++ (if truthy v then [mk (v.getD [])] else []), none)

/-- An `invoke_entrypoint(n)` call whose result is discarded
(`register_goals`). -/
def invokeDiscard (backend_module name : String) (a : Attr) :
    List Event × Option LoadError :=
  match invoke_entrypoint backend_module name a with
  | (evs, .error e) => (evs, some e)
  | (evs, .ok _) => (evs, none)

/-- `load_backend(build_configuration, backend_package, is_v1_backend)`
(lines 174-225): imports `<backend_package>.register` (printing the
traceback and raising `BackendConfigurationError` naming the module on
`ImportError`), then invokes `targets2` (both generations, guarded
register), then the generation-specific entry points. -/
def load_backend (resolver : String → Except String RegisterModule)
    (backend_package : String) (is_v1_backend : Bool) :
    List Event × Option LoadError :=
  let bm := backend_package ++ ".register"
  match resolver bm with
  | .error ex =>
      ([Event.printExc], some (.backendConfigurationError (importFailMsg bm ex)))
  | .ok m =>
      seqR (invokeAndReg bm "targets2" m.targets2 Event.regTargets)
        (if is_v1_backend then
          seqR (invokeDiscard bm "register_goals" m.register_goals)
            (seqR (invokeAndReg bm "global_subsystems" m.global_subsystems Event.regOptionables)
              (invokeAndReg bm "build_file_aliases" m.build_file_aliases Event.regAliases))
        else
          seqR (invokeAndReg bm "rules" m.rules Event.regRules)
            (invokeAndReg bm "build_file_aliases2" m.build_file_aliases2 Event.regAliases))

/-- First-occurrence-preserving deduplication: the behaviour of
`FrozenOrderedSet` construction on a list. -/
def orderedDedup : List String → List String
  | [] => []
  | x :: xs => x :: orderedDedup (xs.filter (fun y => y != x))
  termination_by l => l.length
  decreasing_by
    all_goals
      simp only [List.length_cons]
      exact Nat.lt_succ_of_le (List.length_filter_le _ _)

/-- The always-loaded backend packages prepended by
`load_build_configuration_from_source`: two for generation 1 (line 165),
one for generation 2 (line 169). -/
def mandatoryBackends (is_v1 : Bool) : List String :=
  if is_v1 then ["pants.build_graph", "pants.core_tasks"] else ["pants.rules.core"]

/-- The order in which one generation's backends are loaded:
`FrozenOrderedSet([*mandatory, *names])` (lines 165 and 169). -/
def backendLoadOrder (is_v1 : Bool) (names : List String) : List String :=
  orderedDedup (mandatoryBackends is_v1 ++ names)

/-- Folding `load_backend` over an explicit package list, aborting on the
first error (an uncaught exception stops the `for` loop). -/
def loadBackendsList (resolver : String → Except String RegisterModule)
    (is_v1 : Bool) (pkgs : List String) : List Event × Option LoadError :=
  pkgs.foldl (fun acc pkg => seqR acc (load_backend resolver pkg is_v1)) ([], none)

/-- One generation's half of `load_build_configuration_from_source`
(lines 164-171): iterate `load_backend` over the deduplicated order. -/
def load_backends (resolver : String → Except String RegisterModule)
    (is_v1 : Bool) (names : List String) : List Event × Option LoadError :=
  loadBackendsList resolver is_v1 (backendLoadOrder is_v1 names)

/-- `load_build_configuration_from_source(build_configuration, backends1, backends2)`:
generation 1 then generation 2; an error in the first aborts the second. -/
def load_build_configuration_from_source
    (resolver : String → Except String RegisterModule)
    (backends1 backends2 : List String) : List Event × Option LoadError :=
  seqR (load_backends resolver true backends1) (load_backends resolver false backends2)

/-- A plugin distribution as seen by `load_plugins`: its canonical key
(`dist.as_requirement().key`) and the `pantsbuild.plugin` entry-point map,
one optional field per fixed entry-point name. A `some` field is a present
entry point whose `load()()` returns the carried value. -/
structure PluginDist where
  key : String
  load_after : Option (List String)
  targets2 : Option (List Nat)
  register_goals : Option Unit
  global_subsystems : Option (List Nat)
  build_file_aliases : Option (List Nat)
  rules : Option (List Nat)
  build_file_aliases2 : Option (List Nat)
  deriving DecidableEq, Repr

/-- The entry-point invocations and register calls `load_plugins` performs
for one plugin after the `load_after` check passes (lines 123-149): the
unconditional `targets2` block, then the generation branch — note the v2
branch (lines 140-149) probes `targets2` a second time. Register calls
here have no non-empty guard. -/
def pluginEvents (is_v1_plugin : Bool) (plugin : String) (dist : PluginDist) : List Event :=
  (match dist.targets2 with
   | some v => [Event.invokeEP plugin "targets2", Event.regTargets v]
   | none => []) ++
  (if is_v1_plugin then
    (match dist.register_goals with
     | some _ => [Event.invokeEP plugin "register_goals"]
     | none => []) ++
    (match dist.global_subsystems with
     | some v => [Event.invokeEP plugin "global_subsystems", Event.regOptionables v]
     | none => []) ++
    (match dist.build_file_aliases with
     | some v => [Event.invokeEP plugin "build_file_aliases", Event.regAliases v]
     | none => [])
  else
    (match dist.rules with
     | some v => [Event.invokeEP plugin "rules", Event.regRules v]
     | none => []) ++
    (match dist.build_file_aliases2 with
     | some v => [Event.invokeEP plugin "build_file_aliases2", Event.regAliases v]
     | none => []) ++
    (match dist.targets2 with
     | some v => [Event.invokeEP plugin "targets2", Event.regTargets v]
     | none => []))

/-- One iteration of the `load_plugins` loop (lines 107-150): parse the
requirement, resolve the distribution (raising `PluginNotFound` on a
miss), run the `load_after` check — invoking the entry point and raising
`PluginLoadOrderError` at the first declared predecessor whose key is not
in `loaded` — then invoke the remaining entry points and record the
distribution's key. `loaded` is the key set of the `loaded` dict. -/
def loadOnePlugin (ws : String → Option PluginDist) (is_v1_plugin : Bool)
    (loaded : List String) (plugin : String) :
    List Event × Except LoadError (List String) :=
  match ws (reqKey plugin) with
  | none => ([], .error (.pluginNotFound plugin))
  | some dist =>
      match dist.load_after with
      | some deps =>
          (match deps.find? (fun d => !loaded.contains (reqKey d)) with
           | some d =>
               ([Event.invokeEP plugin "load_after"],
                .error (.pluginLoadOrderError plugin d))
           | none =>
               (Event.invokeEP plugin "load_after" :: pluginEvents is_v1_plugin plugin dist,
                .ok (loaded ++ [dist.key])))
      | none =>
          (pluginEvents is_v1_plugin plugin dist, .ok (loaded ++ [dist.key]))

/-- The `load_plugins` loop from a given `loaded` state: plugins are
processed strictly in list order; the first error stops the loop, keeping
the events already emitted (the configuration is not rolled back). -/
def loadPluginsFrom (ws : String → Option PluginDist) (is_v1_plugin : Bool) :
    List String → List String → List Event × Option LoadError
  | _, [] => ([], none)
  | loaded, p :: ps =>
      match loadOnePlugin ws is_v1_plugin loaded p with
      | (evs, .error e) => (evs, some e)
      | (evs, .ok loaded2) =>
          let r := loadPluginsFrom ws is_v1_plugin loaded2 ps
          (evs ++ r.1, r.2)

/-- `load_plugins(build_configuration, plugins, working_set, is_v1_plugin)`
(lines 76-150): the loop starts with an empty `loaded` dict. -/
def load_plugins (ws : String → Option PluginDist) (plugins : List String)
    (is_v1_plugin : Bool) : List Event × Option LoadError :=
  loadPluginsFrom ws is_v1_plugin [] plugins

/-! Concrete fixtures used by witnesses, counterexamples and evaluations. -/

/-- A working set holding one v2-style plugin `p` whose only entry point is
`targets2`, returning `[1]`. -/
def wsTargetsOnly : String → Option PluginDist :=
  fun k => if k = "p" then some ⟨"p", none, some [1], none, none, none, none, none⟩ else none

/-- A working set holding one plugin `p` whose `global_subsystems` entry
point returns an empty sequence. -/
def wsEmptySubsystems : String → Option PluginDist :=
  fun k => if k = "p" then some ⟨"p", none, none, none, some [], none, none, none⟩ else none

/-- A working set holding one plugin `p` declaring `load_after = ["q"]`,
with entry points that must never run if the check fails. -/
def wsLoadAfterQ : String → Option PluginDist :=
  fun k => if k = "p" then some ⟨"p", some ["q"], some [1], none, some [2], none, none, none⟩ else none

/-- A working set holding plugin `Foo` (key `foo`) with no entry points,
and plugin `p` declaring `load_after = ["Foo==1.2"]`. -/
def wsVersionedDep : String → Option PluginDist :=
  fun k =>
    if k = "foo" then some ⟨"foo", none, none, none, none, none, none, none⟩
    else if k = "p" then some ⟨"p", some ["Foo==1.2"], some [1], none, none, none, none, none⟩
    else none

/-- A module resolver that fails every import with message `boom`. -/
def resolverFail : String → Except String RegisterModule :=
  fun _ => .error "boom"

/-- A register module defining every one of the six entry points, each
returning a distinct non-empty payload. -/
def moduleAll : RegisterModule :=
  ⟨.returns [1], .returns [2], .returns [3], .returns [4], .returns [5], .returns [6]⟩

/-- A module resolver resolving every import to `moduleAll`. -/
def resolverAll : String → Except String RegisterModule :=
  fun _ => .ok moduleAll

/-! Helper lemmas about `orderedDedup` and trace sequencing. -/

/-- Membership in the deduplicated list is membership in the original. -/
theorem mem_orderedDedup (a : String) : (l : List String) → (a ∈ orderedDedup l ↔ a ∈ l)
  | [] => by simp [orderedDedup]
  | x :: xs => by
      rw [orderedDedup]
      constructor
      · intro h
        rcases List.mem_cons.mp h with h | h
        · exact List.mem_cons.mpr (Or.inl h)
        · have h2 := (mem_orderedDedup a (xs.filter (fun y => y != x))).mp h
          exact List.mem_cons.mpr (Or.inr (List.mem_filter.mp h2).1)
      · intro h
        rcases List.mem_cons.mp h with h | h
        · exact List.mem_cons.mpr (Or.inl h)
        · by_cases hax : a = x
          · exact List.mem_cons.mpr (Or.inl hax)
          · refine List.mem_cons.mpr (Or.inr ?_)
            refine (mem_orderedDedup a _).mpr (List.mem_filter.mpr ⟨h, ?_⟩)
            simp [hax]
  termination_by l => l.length
  decreasing_by
    all_goals
      simp only [List.length_cons]
      exact Nat.lt_succ_of_le (List.length_filter_le _ _)

/-- The deduplicated list has no duplicates. -/
theorem nodup_orderedDedup : (l : List String) → (orderedDedup l).Nodup
  | [] => by simp [orderedDedup]
  | x :: xs => by
      rw [orderedDedup]
      refine List.nodup_cons.mpr ⟨?_, nodup_orderedDedup (xs.filter (fun y => y != x))⟩
      intro hx
      have h2 := (mem_orderedDedup x _).mp hx
      have := (List.mem_filter.mp h2).2
      simp at this
  termination_by l => l.length
  decreasing_by
    all_goals
      simp only [List.length_cons]
      exact Nat.lt_succ_of_le (List.length_filter_le _ _)

/-- Deduplication keeps the original relative order: the result is a
sublist of the input. -/
theorem orderedDedup_sublist : (l : List String) → List.Sublist (orderedDedup l) l
  | [] => by simp [orderedDedup]
  | x :: xs => by
      rw [orderedDedup]
      exact List.Sublist.cons₂ x
        ((orderedDedup_sublist (xs.filter (fun y => y != x))).trans (List.filter_sublist xs))
  termination_by l => l.length
  decreasing_by
    all_goals
      simp only [List.length_cons]
      exact Nat.lt_succ_of_le (List.length_filter_le _ _)

/-- Generation 1's mandatory backend packages (line 165). -/
theorem mandatoryBackends_true :
    mandatoryBackends true = ["pants.build_graph", "pants.core_tasks"] := rfl

/-- Generation 2's mandatory backend package (line 169). -/
theorem mandatoryBackends_false :
    mandatoryBackends false = ["pants.rules.core"] := rfl

/-- Generation 1's load order decomposed: the two mandatory packages, then
the caller's names with mandatory names removed, deduplicated. -/
theorem backendLoadOrder_true_eq (names : List String) :
    backendLoadOrder true names =
      "pants.build_graph" :: "pants.core_tasks" ::
        orderedDedup (names.filter
          (fun n => (n != "pants.build_graph") && (n != "pants.core_tasks"))) := by
  rw [backendLoadOrder, mandatoryBackends_true]
  simp only [List.cons_append, List.nil_append]
  simp only [orderedDedup]
  rw [List.filter_cons_of_pos (by decide)]
  simp only [orderedDedup]
  rw [List.filter_filter]
  congr 2
  exact congrArg orderedDedup (List.filter_congr (fun a _ => Bool.and_comm _ _))

/-- Generation 2's load order decomposed: the mandatory package, then the
caller's names with it removed, deduplicated. -/
theorem backendLoadOrder_false_eq (names : List String) :
    backendLoadOrder false names =
      "pants.rules.core" :: orderedDedup (names.filter (fun n => n != "pants.rules.core")) := by
  rw [backendLoadOrder, mandatoryBackends_false]
  simp only [List.cons_append, List.nil_append]
  simp only [orderedDedup]

/-- Sequencing after a success concatenates events. -/
theorem seqR_none (evs : List Event) (b : List Event × Option LoadError) :
    seqR (evs, none) b = (evs ++ b.1, b.2) := rfl

/-- Sequencing after an error keeps the first outcome: the second
computation never runs. -/
theorem seqR_some (evs : List Event) (e : LoadError) (b : List Event × Option LoadError) :
    seqR (evs, some e) b = (evs, some e) := rfl

/-- Once a backend has failed, folding further backends changes nothing:
the loop is aborted. -/
theorem foldl_seqR_error (f : String → List Event × Option LoadError) :
    ∀ (l : List String) (evs : List Event) (e : LoadError),
      l.foldl (fun a p => seqR a (f p)) (evs, some e) = (evs, some e)
  | [], _, _ => rfl
  | _ :: ps, evs, e => by
      rw [List.foldl_cons, seqR_some]
      exact foldl_seqR_error f ps evs e

/-- Folding from an accumulated trace prepends it to the fold from the
empty trace. -/
theorem foldl_seqR_shift (f : String → List Event × Option LoadError) :
    ∀ (l : List String) (evs : List Event),
      l.foldl (fun a p => seqR a (f p)) (evs, none) =
        (evs ++ (l.foldl (fun a p => seqR a (f p)) ([], none)).1,
         (l.foldl (fun a p => seqR a (f p)) ([], none)).2)
  | [], evs => by simp
  | p :: ps, evs => by
      rw [List.foldl_cons, List.foldl_cons, seqR_none, seqR_none, List.nil_append]
      match hfp : (f p).2 with
      | some e =>
          rw [foldl_seqR_error f ps, foldl_seqR_error f ps]
      | none =>
          have h1 := foldl_seqR_shift f ps (evs ++ (f p).1)
          have h2 := foldl_seqR_shift f ps (f p).1
          rw [h1, h2]
          simp

/-- Anything in the events of `invoke_entrypoint` is the invocation itself
or a traceback print. -/
theorem mem_invoke_entrypoint_events (bm n : String) (a : Attr) (e : Event)
    (h : e ∈ (invoke_entrypoint bm n a).1) :
    e = Event.invokeEP bm n ∨ e = Event.printExc := by
  cases a <;> simp [invoke_entrypoint] at h <;> tauto

/-- Anything in the events of an invoke-and-register block is the
invocation, a traceback print, or the register event built by `mk`. -/
theorem mem_invokeAndReg_events (bm n : String) (a : Attr) (mk : List Nat → Event) (e : Event)
    (h : e ∈ (invokeAndReg bm n a mk).1) :
    e = Event.invokeEP bm n ∨ e = Event.printExc ∨ ∃ v, e = mk v := by
  rw [invokeAndReg] at h
  match hi : invoke_entrypoint bm n a with
  | (evs, .error e2) =>
      rw [hi] at h
      rcases mem_invoke_entrypoint_events bm n a e (by rw [hi]; exact h) with h3 | h3 <;> tauto
  | (evs, .ok v) =>
      rw [hi] at h
      simp at h
      rcases h with h | h
      · rcases mem_invoke_entrypoint_events bm n a e (by rw [hi]; exact h) with h3 | h3 <;> tauto
      · rcases h with ⟨-, h⟩
        exact Or.inr (Or.inr ⟨_, h⟩)

/-- Anything in the events of a discarded invocation is the invocation or
a traceback print. -/
theorem mem_invokeDiscard_events (bm n : String) (a : Attr) (e : Event)
    (h : e ∈ (invokeDiscard bm n a).1) :
    e = Event.invokeEP bm n ∨ e = Event.printExc := by
  rw [invokeDiscard] at h
  match hi : invoke_entrypoint bm n a with
  | (evs, .error e2) =>
      rw [hi] at h
      exact mem_invoke_entrypoint_events bm n a e (by rw [hi]; exact h)
  | (evs, .ok v) =>
      rw [hi] at h
      exact mem_invoke_entrypoint_events bm n a e (by rw [hi]; exact h)

/-- Events of a sequence come from one of the two parts. -/
theorem mem_seqR_events (a b : List Event × Option LoadError) (e : Event)
    (h : e ∈ (seqR a b).1) : e ∈ a.1 ∨ e ∈ b.1 := by
  match a with
  | (evs, some e2) => rw [seqR_some] at h; exact Or.inl h
  | (evs, none) => rw [seqR_none] at h; simpa using h

/-- The invocation event of an invoke-and-register block is always
emitted. -/
theorem invokeAndReg_events_invoked (bm n : String) (a : Attr) (mk : List Nat → Event) :
    Event.invokeEP bm n ∈ (invokeAndReg bm n a mk).1 := by
  cases a <;> simp [invokeAndReg, invoke_entrypoint]

/-- Events of the first part survive sequencing. -/
theorem mem_seqR_events_left (a b : List Event × Option LoadError) (e : Event)
    (h : e ∈ a.1) : e ∈ (seqR a b).1 := by
  match a with
  | (evs, some e2) => rw [seqR_some]; exact h
  | (evs, none) => rw [seqR_none]; simp; exact Or.inl h

/-- C1: the claim says every present entry point — in particular
`targets2` — is invoked at most once per `load_plugins` call and its result
passed to `registerTargets` exactly once, regardless of generation. The
code violates this for generation-2 plugins: the unconditional `targets2`
block (lines 125-127) and the duplicate inside the v2 branch (lines
147-149) each invoke the entry point and register its result, so both
happen twice. This theorem evaluates the loader at a v2 plugin whose only
entry point is `targets2`. -/
theorem C1_targets2_invoked_twice_for_v2_plugin :
    load_plugins wsTargetsOnly ["p"] false =
      ([Event.invokeEP "p" "targets2", Event.regTargets [1],
        Event.invokeEP "p" "targets2", Event.regTargets [1]], none) ∧
    (load_plugins wsTargetsOnly ["p"] true).1.count (Event.invokeEP "p" "targets2") = 1 ∧
    (load_plugins wsTargetsOnly ["p"] false).1.count (Event.invokeEP "p" "targets2") = 2 := by
  refine ⟨rfl, ?_, ?_⟩ <;> rfl

/-- C2 counterexample: the claim asserts that for each generation the load
order contains two designated mandatory backend names. For generation 2
with an empty caller list the computed order is the single-element
`["pants.rules.core"]`, so no two distinct names are both present. -/
theorem C2_counterexample :
    ¬ ∃ a b : String, a ≠ b ∧ a ∈ backendLoadOrder false [] ∧ b ∈ backendLoadOrder false [] := by
  rw [backendLoadOrder_false_eq]
  rintro ⟨a, b, hab, ha, hb⟩
  simp [orderedDedup] at ha hb
  exact hab (ha.trans hb.symm)

/-- C2 amended: generation 1 always places its two mandatory backend names
(`pants.build_graph`, `pants.core_tasks`) first, each exactly once;
generation 2 places its single mandatory backend name (`pants.rules.core`)
first, exactly once — in both cases deduplicated against any duplicates in
the caller's list, regardless of caller input. -/
theorem C2_amended_mandatory_backends (backends1 backends2 : List String) :
    (backendLoadOrder true backends1).take 2 = ["pants.build_graph", "pants.core_tasks"] ∧
    (backendLoadOrder true backends1).count "pants.build_graph" = 1 ∧
    (backendLoadOrder true backends1).count "pants.core_tasks" = 1 ∧
    (backendLoadOrder false backends2).take 1 = ["pants.rules.core"] ∧
    (backendLoadOrder false backends2).count "pants.rules.core" = 1 := by
  refine ⟨?_, ?_, ?_, ?_, ?_⟩
  · rw [backendLoadOrder_true_eq]; rfl
  · exact List.count_eq_one_of_mem (nodup_orderedDedup _)
      ((mem_orderedDedup _ _).mpr (by rw [mandatoryBackends_true]; simp))
  · exact List.count_eq_one_of_mem (nodup_orderedDedup _)
      ((mem_orderedDedup _ _).mpr (by rw [mandatoryBackends_true]; simp))
  · rw [backendLoadOrder_false_eq]; rfl
  · exact List.count_eq_one_of_mem (nodup_orderedDedup _)
      ((mem_orderedDedup _ _).mpr (by rw [mandatoryBackends_false]; simp))

/-- C9: in the backend loader, any `TypeError` raised while evaluating
`entrypoint()` — including one raised inside the body of a valid zero-arg
callable, which `except TypeError` cannot distinguish from an arity
mismatch — is converted into the entry-point `BackendConfigurationError`
naming the entry point and the module (after printing the traceback),
while an exception of any other type propagates unwrapped. -/
theorem C9_typeerror_converted_others_propagate (bm n ex : String) :
    invoke_entrypoint bm n (Attr.raisesTypeError ex) =
      ([Event.invokeEP bm n, Event.printExc],
       .error (.backendConfigurationError (entryPointErrMsg n bm ex))) ∧
    invoke_entrypoint bm n (Attr.raisesOther ex) =
      ([Event.invokeEP bm n], .error (.propagated ex)) :=
  ⟨rfl, rfl⟩

/-- C3 counterexample: the claim says an empty or absent entry-point
result is never passed to a `register*` call. For a plugin whose
`global_subsystems` entry point returns an empty sequence, `load_plugins`
(line 134) passes the empty result straight to `register_optionables` —
the plugin loader has no non-empty guard, unlike `load_backend`. -/
theorem C3_counterexample :
    Event.regOptionables [] ∈ (load_plugins wsEmptySubsystems ["p"] true).1 := by decide

/-- C3 amended: `load_plugins` passes each present, generation-appropriate
entry-point result to the matching `register*` call unconditionally — even
when empty — rather than guarding on non-emptiness as the backend loader
does. For every plugin distribution: in a generation-1 load, a present
`targets2`, `global_subsystems` or `build_file_aliases` result is
registered exactly once; in a generation-2 load, a present `rules` or
`build_file_aliases2` result is registered exactly once and a present
`targets2` result is registered twice. (`register_goals` merges nothing:
its result is discarded.) -/
theorem C3_amended_plugin_results_registered_unconditionally
    (p : String) (d : PluginDist) :
    (∀ v, d.targets2 = some v →
      (pluginEvents true p d).count (Event.regTargets v) = 1 ∧
      (pluginEvents false p d).count (Event.regTargets v) = 2) ∧
    (∀ v, d.global_subsystems = some v →
      (pluginEvents true p d).count (Event.regOptionables v) = 1) ∧
    (∀ v, d.build_file_aliases = some v →
      (pluginEvents true p d).count (Event.regAliases v) = 1) ∧
    (∀ v, d.rules = some v →
      (pluginEvents false p d).count (Event.regRules v) = 1) ∧
    (∀ v, d.build_file_aliases2 = some v →
      (pluginEvents false p d).count (Event.regAliases v) = 1) := by
  obtain ⟨k, la, t2, rg, gs, bfa, rl, bfa2⟩ := d
  refine ⟨?_, ?_, ?_, ?_, ?_⟩ <;> intro v hv <;> simp only at hv <;> subst hv
  · constructor
    · cases rg <;> cases gs <;> cases bfa <;>
        simp [pluginEvents, List.count_append, List.count_cons]
    · cases rl <;> cases bfa2 <;>
        simp [pluginEvents, List.count_append, List.count_cons]
  · cases t2 <;> cases rg <;> cases bfa <;>
      simp [pluginEvents, List.count_append, List.count_cons]
  · cases t2 <;> cases rg <;> cases gs <;>
      simp [pluginEvents, List.count_append, List.count_cons]
  · cases t2 <;> cases bfa2 <;>
      simp [pluginEvents, List.count_append, List.count_cons]
  · cases t2 <;> cases rl <;>
      simp [pluginEvents, List.count_append, List.count_cons]

/-- C3 amended, witness: a plugin defining every entry point — with an
empty `global_subsystems` result — has each generation-appropriate result
registered unconditionally: the empty subsystems result once, the
`build_file_aliases` result once (generation 1), the `rules` and
`build_file_aliases2` results once and the `targets2` result twice
(generation 2). -/
theorem C3_amended_witness :
    (⟨"p", none, some [1], some (), some [], some [3], some [4], some [5]⟩
        : PluginDist).targets2 = some [1] ∧
    (⟨"p", none, some [1], some (), some [], some [3], some [4], some [5]⟩
        : PluginDist).global_subsystems = some [] ∧
    (⟨"p", none, some [1], some (), some [], some [3], some [4], some [5]⟩
        : PluginDist).build_file_aliases = some [3] ∧
    (⟨"p", none, some [1], some (), some [], some [3], some [4], some [5]⟩
        : PluginDist).rules = some [4] ∧
    (⟨"p", none, some [1], some (), some [], some [3], some [4], some [5]⟩
        : PluginDist).build_file_aliases2 = some [5] ∧
    ((pluginEvents true "p" ⟨"p", none, some [1], some (), some [], some [3], some [4], some [5]⟩).count
        (Event.regTargets [1]) = 1 ∧
     (pluginEvents false "p" ⟨"p", none, some [1], some (), some [], some [3], some [4], some [5]⟩).count
        (Event.regTargets [1]) = 2) ∧
    (pluginEvents true "p" ⟨"p", none, some [1], some (), some [], some [3], some [4], some [5]⟩).count
        (Event.regOptionables []) = 1 ∧
    (pluginEvents true "p" ⟨"p", none, some [1], some (), some [], some [3], some [4], some [5]⟩).count
        (Event.regAliases [3]) = 1 ∧
    (pluginEvents false "p" ⟨"p", none, some [1], some (), some [], some [3], some [4], some [5]⟩).count
        (Event.regRules [4]) = 1 ∧
    (pluginEvents false "p" ⟨"p", none, some [1], some (), some [], some [3], some [4], some [5]⟩).count
        (Event.regAliases [5]) = 1 :=
  ⟨rfl, rfl, rfl, rfl, rfl,
   (C3_amended_plugin_results_registered_unconditionally "p"
      ⟨"p", none, some [1], some (), some [], some [3], some [4], some [5]⟩).1 [1] rfl,
   (C3_amended_plugin_results_registered_unconditionally "p"
      ⟨"p", none, some [1], some (), some [], some [3], some [4], some [5]⟩).2.1 [] rfl,
   (C3_amended_plugin_results_registered_unconditionally "p"
      ⟨"p", none, some [1], some (), some [], some [3], some [4], some [5]⟩).2.2.1 [3] rfl,
   (C3_amended_plugin_results_registered_unconditionally "p"
      ⟨"p", none, some [1], some (), some [], some [3], some [4], some [5]⟩).2.2.2.1 [4] rfl,
   (C3_amended_plugin_results_registered_unconditionally "p"
      ⟨"p", none, some [1], some (), some [], some [3], some [4], some [5]⟩).2.2.2.2 [5] rfl⟩

/-- C4: for every caller-supplied backend name list and either generation,
the computed load order is the generation's mandatory names first, followed
by the caller's names with mandatory names removed and deduplicated by
first occurrence; the order has no duplicates (each name is loaded at most
once per call), and the non-mandatory remainder preserves the caller's
relative order (it is a sublist of the caller's list). -/
theorem C4_backend_order (is_v1 : Bool) (names : List String) :
    backendLoadOrder is_v1 names =
      mandatoryBackends is_v1 ++
        orderedDedup (names.filter (fun n => !(mandatoryBackends is_v1).contains n)) ∧
    (backendLoadOrder is_v1 names).Nodup ∧
    List.Sublist
      (orderedDedup (names.filter (fun n => !(mandatoryBackends is_v1).contains n))) names := by
  refine ⟨?_, nodup_orderedDedup _, ?_⟩
  · cases is_v1
    · rw [backendLoadOrder_false_eq, mandatoryBackends_false]
      simp only [List.cons_append, List.nil_append]
      congr 1
      exact congrArg orderedDedup (List.filter_congr
        (fun a _ => by by_cases h : a = "pants.rules.core" <;> simp [h]))
    · rw [backendLoadOrder_true_eq, mandatoryBackends_true]
      simp only [List.cons_append, List.nil_append]
      congr 2
      exact congrArg orderedDedup (List.filter_congr
        (fun a _ => by
          by_cases h1 : a = "pants.build_graph" <;> by_cases h2 : a = "pants.core_tasks" <;>
            simp [h1, h2]))
  · exact (orderedDedup_sublist _).trans (List.filter_sublist names)

/-- C5: whenever a plugin declares `load_after` and some declared
predecessor's key is not among the plugins already loaded in the same
call, processing that plugin invokes the `load_after` entry point and then
raises `PluginLoadOrderError` naming the plugin and the (first) missing
predecessor — and nothing else: no other entry point of the plugin is
invoked and no result of it is merged into the configuration, as the
returned trace contains only the `load_after` invocation. -/
theorem C5_load_after_error_precedes_everything (ws : String → Option PluginDist) (is_v1 : Bool)
    (loaded : List String) (plugin : String) (dist : PluginDist) (deps : List String) (d : String)
    (hws : ws (reqKey plugin) = some dist)
    (hla : dist.load_after = some deps)
    (hfind : deps.find? (fun n => !loaded.contains (reqKey n)) = some d) :
    loadOnePlugin ws is_v1 loaded plugin =
      ([Event.invokeEP plugin "load_after"],
       .error (.pluginLoadOrderError plugin d)) := by
  simp only [loadOnePlugin, hws, hla, hfind]

/-- C5 witness: plugin `p` declaring `load_after = ["q"]` with nothing yet
loaded fails with `PluginLoadOrderError` before `targets2` or
`global_subsystems` run. -/
theorem C5_witness :
    wsLoadAfterQ (reqKey "p") =
      some ⟨"p", some ["q"], some [1], none, some [2], none, none, none⟩ ∧
    (⟨"p", some ["q"], some [1], none, some [2], none, none, none⟩ : PluginDist).load_after
      = some ["q"] ∧
    ["q"].find? (fun n => !([] : List String).contains (reqKey n)) = some "q" ∧
    loadOnePlugin wsLoadAfterQ true [] "p" =
      ([Event.invokeEP "p" "load_after"],
       .error (.pluginLoadOrderError "p" "q")) :=
  ⟨rfl, rfl, rfl,
   C5_load_after_error_precedes_everything wsLoadAfterQ true [] "p"
     ⟨"p", some ["q"], some [1], none, some [2], none, none, none⟩ ["q"] "q" rfl rfl rfl⟩

/-- C8: plugin requirement strings are not deduplicated — when the same
requirement appears twice in the list, the plugin is fully processed
twice: the whole event block (entry-point invocations and register calls)
is emitted once per occurrence, because the `loaded` dict is consulted
only by `load_after` checks, never to skip a plugin. -/
theorem C8_duplicate_plugin_processed_twice (ws : String → Option PluginDist) (is_v1 : Bool)
    (p : String) (d : PluginDist)
    (hws : ws (reqKey p) = some d) (hla : d.load_after = none) :
    load_plugins ws [p, p] is_v1 =
      (pluginEvents is_v1 p d ++ pluginEvents is_v1 p d, none) := by
  unfold load_plugins
  simp [loadPluginsFrom, loadOnePlugin, hws, hla]

/-- C8 witness: the `targets2`-only plugin listed twice is invoked and
registered in full on both occurrences. -/
theorem C8_witness :
    wsTargetsOnly (reqKey "p") = some ⟨"p", none, some [1], none, none, none, none, none⟩ ∧
    (⟨"p", none, some [1], none, none, none, none, none⟩ : PluginDist).load_after = none ∧
    load_plugins wsTargetsOnly ["p", "p"] false =
      (pluginEvents false "p" ⟨"p", none, some [1], none, none, none, none, none⟩ ++
       pluginEvents false "p" ⟨"p", none, some [1], none, none, none, none, none⟩, none) :=
  ⟨rfl, rfl, C8_duplicate_plugin_processed_twice wsTargetsOnly false "p"
    ⟨"p", none, some [1], none, none, none, none, none⟩ rfl rfl⟩

/-- C6: when a backend's register module fails to resolve, `load_backend`
raises `BackendConfigurationError` whose message names the offending
module and embeds the underlying failure's repr, after first printing the
original diagnostic trace (the `printExc` event precedes surfacing); the
remaining load sequence is aborted — the resulting trace is exactly the
events of the backends before the failing one plus the traceback print, so
no later backend contributes any registration (a marker only a later
backend could register is absent), while the earlier backends' merges are
kept (no rollback). -/
theorem C6_import_failure_aborts_sequence (resolver : String → Except String RegisterModule)
    (is_v1 : Bool) (names : List String) (pkg ex : String) (l1 l2 : List String)
    (horder : backendLoadOrder is_v1 names = l1 ++ pkg :: l2)
    (hok : (loadBackendsList resolver is_v1 l1).2 = none)
    (hfail : resolver (pkg ++ ".register") = .error ex) :
    load_backends resolver is_v1 names =
      ((loadBackendsList resolver is_v1 l1).1 ++ [Event.printExc],
       some (.backendConfigurationError (importFailMsg (pkg ++ ".register") ex))) := by
  have hlb : load_backend resolver pkg is_v1 =
      ([Event.printExc],
       some (.backendConfigurationError (importFailMsg (pkg ++ ".register") ex))) := by
    simp only [load_backend, hfail]
  rcases hLB : loadBackendsList resolver is_v1 l1 with ⟨evs1, err1⟩
  rw [hLB] at hok
  simp only at hok
  subst hok
  unfold load_backends
  rw [horder]
  unfold loadBackendsList
  rw [List.foldl_append]
  have h1 : l1.foldl (fun acc pkg => seqR acc (load_backend resolver pkg is_v1)) ([], none) =
      (evs1, none) := hLB
  rw [h1, List.foldl_cons, seqR_none, hlb]
  simp only
  rw [foldl_seqR_error]

/-- C6 witness: with every import failing, the generation-2 sequence stops
at its first backend with the import error message and just the traceback
print in the trace. -/
theorem C6_witness :
    backendLoadOrder false [] = [] ++ "pants.rules.core" :: [] ∧
    (loadBackendsList resolverFail false []).2 = none ∧
    resolverFail ("pants.rules.core" ++ ".register") = .error "boom" ∧
    load_backends resolverFail false [] =
      ((loadBackendsList resolverFail false []).1 ++ [Event.printExc],
       some (.backendConfigurationError
         (importFailMsg ("pants.rules.core" ++ ".register") "boom"))) :=
  ⟨by simp [backendLoadOrder, mandatoryBackends, orderedDedup], rfl, rfl,
   C6_import_failure_aborts_sequence resolverFail false [] "pants.rules.core" "boom" [] []
     (by simp [backendLoadOrder, mandatoryBackends, orderedDedup]) rfl rfl⟩

/-- C7: for a backend whose register module resolves, a load under
generation 2 never invokes the generation-1-only entry points
(`register_goals`, `global_subsystems`, `build_file_aliases`), a load
under generation 1 never invokes the generation-2-only entry points
(`rules`, `build_file_aliases2`), and `targets2` is invoked under both
generations. -/
theorem C7_generation_separation (resolver : String → Except String RegisterModule)
    (pkg : String) (m : RegisterModule)
    (h : resolver (pkg ++ ".register") = .ok m) :
    (∀ n, (n = "register_goals" ∨ n = "global_subsystems" ∨ n = "build_file_aliases") →
      Event.invokeEP (pkg ++ ".register") n ∉ (load_backend resolver pkg false).1) ∧
    (∀ n, (n = "rules" ∨ n = "build_file_aliases2") →
      Event.invokeEP (pkg ++ ".register") n ∉ (load_backend resolver pkg true).1) ∧
    Event.invokeEP (pkg ++ ".register") "targets2" ∈ (load_backend resolver pkg true).1 ∧
    Event.invokeEP (pkg ++ ".register") "targets2" ∈ (load_backend resolver pkg false).1 := by
  have h2 : load_backend resolver pkg false =
      seqR (invokeAndReg (pkg ++ ".register") "targets2" m.targets2 Event.regTargets)
        (seqR (invokeAndReg (pkg ++ ".register") "rules" m.rules Event.regRules)
          (invokeAndReg (pkg ++ ".register") "build_file_aliases2" m.build_file_aliases2
            Event.regAliases)) := by
    simp only [load_backend, h]
    rfl
  have h1 : load_backend resolver pkg true =
      seqR (invokeAndReg (pkg ++ ".register") "targets2" m.targets2 Event.regTargets)
        (seqR (invokeDiscard (pkg ++ ".register") "register_goals" m.register_goals)
          (seqR (invokeAndReg (pkg ++ ".register") "global_subsystems" m.global_subsystems
              Event.regOptionables)
            (invokeAndReg (pkg ++ ".register") "build_file_aliases" m.build_file_aliases
              Event.regAliases))) := by
    simp only [load_backend, h]
    rfl
  refine ⟨?_, ?_, ?_, ?_⟩
  · intro n hn hmem
    rw [h2] at hmem
    rcases mem_seqR_events _ _ _ hmem with hm | hm
    · rcases mem_invokeAndReg_events _ _ _ _ _ hm with he | he | ⟨v, he⟩ <;>
        rcases hn with rfl | rfl | rfl <;> simp_all
    · rcases mem_seqR_events _ _ _ hm with hm2 | hm2 <;>
        rcases mem_invokeAndReg_events _ _ _ _ _ hm2 with he | he | ⟨v, he⟩ <;>
          rcases hn with rfl | rfl | rfl <;> simp_all
  · intro n hn hmem
    rw [h1] at hmem
    rcases mem_seqR_events _ _ _ hmem with hm | hm
    · rcases mem_invokeAndReg_events _ _ _ _ _ hm with he | he | ⟨v, he⟩ <;>
        rcases hn with rfl | rfl <;> simp_all
    · rcases mem_seqR_events _ _ _ hm with hm2 | hm2
      · rcases mem_invokeDiscard_events _ _ _ _ hm2 with he | he <;>
          rcases hn with rfl | rfl <;> simp_all
      · rcases mem_seqR_events _ _ _ hm2 with hm3 | hm3 <;>
          rcases mem_invokeAndReg_events _ _ _ _ _ hm3 with he | he | ⟨v, he⟩ <;>
            rcases hn with rfl | rfl <;> simp_all
  · rw [h1]
    exact mem_seqR_events_left _ _ _ (invokeAndReg_events_invoked _ _ _ _)
  · rw [h2]
    exact mem_seqR_events_left _ _ _ (invokeAndReg_events_invoked _ _ _ _)

/-- C7 witness: a backend module defining all six entry points, loaded
under generation 2, never has `register_goals` invoked, and `targets2` is
invoked in both generations. -/
theorem C7_witness :
    resolverAll ("demo" ++ ".register") = .ok moduleAll ∧
    Event.invokeEP ("demo" ++ ".register") "register_goals"
      ∉ (load_backend resolverAll "demo" false).1 ∧
    Event.invokeEP ("demo" ++ ".register") "rules"
      ∉ (load_backend resolverAll "demo" true).1 ∧
    Event.invokeEP ("demo" ++ ".register") "targets2" ∈ (load_backend resolverAll "demo" true).1 ∧
    Event.invokeEP ("demo" ++ ".register") "targets2"
      ∈ (load_backend resolverAll "demo" false).1 :=
  ⟨rfl,
   (C7_generation_separation resolverAll "demo" moduleAll rfl).1 "register_goals" (Or.inl rfl),
   (C7_generation_separation resolverAll "demo" moduleAll rfl).2.1 "rules" (Or.inl rfl),
   (C7_generation_separation resolverAll "demo" moduleAll rfl).2.2.1,
   (C7_generation_separation resolverAll "demo" moduleAll rfl).2.2.2⟩

/-- Helper: `takeWhile` passes over a block whose elements all satisfy the
predicate. -/
theorem takeWhile_append_of_all {p : Char → Bool} :
    ∀ (l1 l2 : List Char), (∀ c ∈ l1, p c = true) →
      (l1 ++ l2).takeWhile p = l1 ++ l2.takeWhile p
  | [], l2, _ => rfl
  | c :: cs, l2, h => by
      rw [List.cons_append, List.takeWhile_cons_of_pos (h c (by simp)),
        takeWhile_append_of_all cs l2 (fun c hc => h c (by simp [hc])), List.cons_append]

/-- Helper: `takeWhile` keeps a list all of whose elements satisfy the
predicate. -/
theorem takeWhile_all_eq_self {p : Char → Bool} :
    ∀ (l : List Char), (∀ c ∈ l, p c = true) → l.takeWhile p = l
  | [], _ => rfl
  | c :: cs, h => by
      rw [List.takeWhile_cons_of_pos (h c (by simp)),
        takeWhile_all_eq_self cs (fun c hc => h c (by simp [hc]))]

/-- The canonical key of a requirement string is unchanged by appending a
version constraint: for a constraint-free project name `n` and a suffix
starting with a version-operator character, `Requirement.parse` keys
`n ++ sfx` and `n` identically. -/
theorem reqKey_append_constraint (n sfx : String)
    (hn : ∀ c ∈ n.toList, isVersionOpChar c = false)
    (hsfx : (sfx.toList.head?.elim false isVersionOpChar) = true) :
    reqKey (n ++ sfx) = reqKey n := by
  have hto : (n ++ sfx).toList = n.toList ++ sfx.toList := String.data_append n sfx
  have hnb : ∀ c ∈ n.toList, (!isVersionOpChar c) = true := by
    intro c hc
    rw [hn c hc]
    rfl
  have hsf : sfx.toList.takeWhile (fun c => !isVersionOpChar c) = [] := by
    match hh : sfx.toList with
    | [] => rfl
    | c :: cs =>
        rw [hh] at hsfx
        simp only [List.head?_cons, Option.elim] at hsfx
        rw [List.takeWhile_cons_of_neg]
        rw [hsfx]
        simp
  unfold reqKey reqProjectChars
  rw [hto, takeWhile_append_of_all _ _ hnb, hsf, List.append_nil,
    takeWhile_all_eq_self _ hnb]

/-- C10: the `load_after` check parses each declared predecessor with
`Requirement.parse` and compares only the canonical case-normalised key
against the `loaded` dict, ignoring any version constraint: a predecessor
declared as `n ++ sfx` (project name plus version constraint) is satisfied
whenever any version of that project was loaded earlier in the same call,
and the plugin then loads normally. -/
theorem C10_load_after_ignores_version (ws : String → Option PluginDist) (is_v1 : Bool)
    (loaded : List String) (plugin : String) (dist : PluginDist) (n sfx : String)
    (hws : ws (reqKey plugin) = some dist)
    (hla : dist.load_after = some [n ++ sfx])
    (hn : ∀ c ∈ n.toList, isVersionOpChar c = false)
    (hsfx : (sfx.toList.head?.elim false isVersionOpChar) = true)
    (hloaded : reqKey n ∈ loaded) :
    reqKey (n ++ sfx) = reqKey n ∧
    loadOnePlugin ws is_v1 loaded plugin =
      (Event.invokeEP plugin "load_after" :: pluginEvents is_v1 plugin dist,
       .ok (loaded ++ [dist.key])) := by
  have hk := reqKey_append_constraint n sfx hn hsfx
  refine ⟨hk, ?_⟩
  have hfind : [n ++ sfx].find? (fun d => !loaded.contains (reqKey d)) = none := by
    simp only [List.find?_cons, hk]
    have : loaded.contains (reqKey n) = true := List.elem_eq_true_of_mem hloaded
    rw [this]
    simp
  simp only [loadOnePlugin, hws, hla, hfind]

/-- C10 witness: plugin `p` declares `load_after = ["Foo==1.2"]`; the
check passes because `foo` (any version) is already loaded, and `p` loads
normally. -/
theorem C10_witness :
    wsVersionedDep (reqKey "p") =
      some ⟨"p", some ["Foo==1.2"], some [1], none, none, none, none, none⟩ ∧
    (⟨"p", some ["Foo==1.2"], some [1], none, none, none, none, none⟩ : PluginDist).load_after
      = some ["Foo" ++ "==1.2"] ∧
    reqKey "Foo" ∈ ["foo"] ∧
    (reqKey ("Foo" ++ "==1.2") = reqKey "Foo" ∧
     loadOnePlugin wsVersionedDep true ["foo"] "p" =
       (Event.invokeEP "p" "load_after" ::
          pluginEvents true "p" ⟨"p", some ["Foo==1.2"], some [1], none, none, none, none, none⟩,
        .ok (["foo"] ++ ["p"]))) :=
  ⟨rfl, by decide, by decide,
   C10_load_after_ignores_version wsVersionedDep true ["foo"] "p"
     ⟨"p", some ["Foo==1.2"], some [1], none, none, none, none, none⟩ "Foo" "==1.2"
     rfl (by decide) (by decide) (by decide) (by decide)⟩
